import Mathlib

/-!
Shallow embedding of `src/main.py` (SEC Filings Data Viewer).

The script builds SQL filter conditions from UI widgets, gates on at least one
filter, runs a COUNT query, computes pagination bounds, runs a bounded ordered
fetch, displays the page and offers a CSV export of it.  Dates are modelled as
naturals (ISO dates are totally ordered; DuckDB compares them as such), the
`cik` column as a natural (DuckDB auto-types the digit column as an integer;
`CAST(cik AS VARCHAR)` is its decimal rendering), and the remaining numeric
columns as naturals.  The query engine is modelled both abstractly (a fallible
oracle, for the error-handling paths guarded by `try/except`) and concretely
(filter + sort + slice over an in-memory corpus, the semantics of the generated
SQL).
-/

/-- The three choices of the `st.sidebar.radio("Date Filter Mode", ...)` widget:
"No Date Filter", "Single Date", "Date Range". -/
inductive DateMode where
  | noDateFilter
  | single
  | range
deriving DecidableEq

/-- One SQL WHERE condition appended to `filter_conditions` in the script:
`date = '{selected_date}'`, `date >= '{start_date}' AND date <= '{end_date}'`,
or `CAST(cik AS VARCHAR) = '{cik_input}'`. -/
inductive FilterCriterion where
  | dateEquals (d : Nat)
  | dateRange (startDate endDate : Nat)
  | identifierEquals (s : String)
deriving DecidableEq

/-- A source row of the CSV corpus, with the columns named in `base_query`.
`Company Name` is nullable in the source (hence `Option`); the script wraps it
in `COALESCE("Company Name", 'Unknown')`. -/
structure Row where
  date : Nat
  cik : Nat
  companyName : Option String
  total_records : Nat
  defm14a : Nat
  sc13e3a : Nat
  sc13e3 : Nat
  f10q : Nat
  f10_q : Nat
  f8k : Nat
  form4 : Nat
  f10k : Nat
  f10_k : Nat
  proxy : Nat
  ownership : Nat
deriving DecidableEq

/-- A row as produced by the SELECT list of `base_query`: identical to the
source row except that `COALESCE` has replaced a missing `Company Name` by the
string literal `'Unknown'`, so the column is non-nullable. -/
structure OutRow where
  date : Nat
  cik : Nat
  companyName : String
  total_records : Nat
  defm14a : Nat
  sc13e3a : Nat
  sc13e3 : Nat
  f10q : Nat
  f10_q : Nat
  f8k : Nat
  form4 : Nat
  f10k : Nat
  f10_k : Nat
  proxy : Nat
  ownership : Nat
deriving DecidableEq

/-- The SELECT list of `base_query`: every column is passed through unchanged
except `COALESCE("Company Name", 'Unknown') AS Company_Name`. -/
def selectRow (r : Row) : OutRow :=
  ⟨r.date, r.cik, r.companyName.getD "Unknown", r.total_records, r.defm14a,
   r.sc13e3a, r.sc13e3, r.f10q, r.f10_q, r.f8k, r.form4, r.f10k, r.f10_k,
   r.proxy, r.ownership⟩

/-- `st.sidebar.date_input(label, date.today())`: the widget yields the user's
date if one was picked and otherwise the supplied default (`date.today()`); it
never yields a missing value. -/
def date_input (userValue : Option Nat) (default : Nat) : Nat :=
  userValue.getD default

/-- Decimal digit characters, for rendering a natural the way
`CAST(cik AS VARCHAR)` and the CSV export render integer columns. -/
def digitChar (d : Nat) : Char :=
  match d with
  | 0 => '0' | 1 => '1' | 2 => '2' | 3 => '3' | 4 => '4'
  | 5 => '5' | 6 => '6' | 7 => '7' | 8 => '8' | 9 => '9'
  | _ => '*'

/-- Accumulator form of decimal rendering: prepends the digits of `n` (most
significant first) to `tail`. -/
def natDigitsAux (n : Nat) (tail : List Char) : List Char :=
  if h : n = 0 then tail
  else natDigitsAux (n / 10) (digitChar (n % 10) :: tail)
termination_by n
decreasing_by exact Nat.div_lt_self (Nat.pos_of_ne_zero h) (by omega)

/-- Decimal digits of a natural, no leading zeros (`0` renders as `"0"`). -/
def natDigits (n : Nat) : List Char :=
  if n = 0 then ['0'] else natDigitsAux n []

/-- Decimal string of a natural: the model of `CAST(cik AS VARCHAR)` and of the
integer cells written by `df.to_csv`. -/
def natString (n : Nat) : String :=
  String.mk (natDigits n)

/-- The `filter_conditions` list accumulated by the script: first the date
condition of the selected mode (the date widgets default to `date.today()`, so
in Single/Range mode a date value is always present — a Python `date` is always
truthy, so the `if start_date and end_date` guard always passes), then the CIK
condition when the text input is non-empty (`if cik_input:`). -/
def filter_conditions (mode : DateMode) (selected_date start_date end_date : Nat)
    (cik_input : String) : List FilterCriterion :=
  (match mode with
   | .single => [.dateEquals selected_date]
   | .range => [.dateRange start_date end_date]
   | .noDateFilter => []) ++
  (if cik_input = "" then [] else [.identifierEquals cik_input])

/-- Semantics of one WHERE condition on a source row.  Date comparisons are the
engine's total order on dates (inclusive `>=`/`<=` for the range); the CIK
condition is string equality between the decimal cast of `cik` and the user's
input. -/
def rowMatches (c : FilterCriterion) (r : Row) : Bool :=
  match c with
  | .dateEquals d => r.date == d
  | .dateRange s e => decide (s ≤ r.date) && decide (r.date ≤ e)
  | .identifierEquals str => natString r.cik == str

/-- The WHERE clause: the AND of all accumulated conditions. -/
def matchesAll (conds : List FilterCriterion) (r : Row) : Bool :=
  conds.all (fun c => rowMatches c r)

/-- `SELECT COUNT(*) FROM (filtered_query)`: the number of corpus rows
satisfying every condition. -/
def countQuery (corpus : List Row) (conds : List FilterCriterion) : Nat :=
  (corpus.filter (matchesAll conds)).length

/-- The `ORDER BY date, cik` comparison on selected rows: date ascending, then
cik ascending. -/
def orderKeyLe (a b : OutRow) : Bool :=
  decide (a.date < b.date) || (decide (a.date = b.date) && decide (a.cik ≤ b.cik))

/-- The full filtered, selected, ordered view (`filtered_query` plus
`ORDER BY date, cik`, before LIMIT/OFFSET). -/
def sortedMatches (corpus : List Row) (conds : List FilterCriterion) : List OutRow :=
  ((corpus.filter (matchesAll conds)).map selectRow).mergeSort orderKeyLe

/-- `LIMIT lim OFFSET off` applied to the ordered view: skip `off` rows, then
return at most `lim`. -/
def fetchQuery (corpus : List Row) (conds : List FilterCriterion)
    (lim off : Nat) : List OutRow :=
  ((sortedMatches corpus conds).drop off).take lim

/-- `rows_per_page = 10000`. -/
def rows_per_page : Nat := 10000

/-- `max_page = math.ceil(total_count / rows_per_page) if total_count > 0 else 1`. -/
def max_page (total_count : Nat) : Nat :=
  if 0 < total_count then (total_count + rows_per_page - 1) / rows_per_page else 1

/-- The page number produced by
`st.number_input("Page Number", min_value=1, max_value=max_page, value=1,
step=1)`: the user's requested page clamped into `[1, max_page]`. -/
def effectivePage (requested mp : Nat) : Nat :=
  min (max requested 1) mp

/-- `offset = (page - 1) * rows_per_page`. -/
def offsetFor (page : Nat) : Nat :=
  (page - 1) * rows_per_page

/-- The two dataset requests the script can issue: the count query and the
paginated fetch. -/
inductive QueryKind where
  | count
  | fetch
deriving DecidableEq

/-- The materialized page: the fetched rows plus the `total_count` and the
effective page number they were computed against. -/
structure ResultPage where
  rows : List OutRow
  totalCount : Nat
  pageNumber : Nat
deriving DecidableEq

/-- How one run of the script ends: `st.stop` after the empty-corpus error,
`st.stop` after the "select at least one filter" prompt, `st.stop` after one of
the two `st.error` handlers, or a displayed page. -/
inductive Outcome where
  | corpusEmpty
  | awaitingFilter
  | countFailed (msg : String)
  | fetchFailed (msg : String)
  | display (page : ResultPage)
deriving DecidableEq

/-- The query engine as the script sees it: each `duckdb.sql(...).fetchdf()`
either returns a result or raises (modelled by `Except`). -/
structure Engine where
  runCount : List FilterCriterion → Except String Nat
  runFetch : List FilterCriterion → Nat → Nat → Except String (List OutRow)

/-- The flow from the filter gate onward (lines 75-116 of the script): halt
with a prompt when no condition was accumulated; otherwise run the count query
inside `try/except`, derive `max_page`/`page`/`offset`, run the fetch inside
`try/except`, and display.  Alongside the outcome, the list of dataset requests
actually issued is returned. -/
def resolve (conds : List FilterCriterion) (requestedPage : Nat) (engine : Engine) :
    Outcome × List QueryKind :=
  if conds.isEmpty then (.awaitingFilter, [])
  else
    match engine.runCount conds with
    | .error msg => (.countFailed msg, [.count])
    | .ok total_count =>
      let page := effectivePage requestedPage (max_page total_count)
      match engine.runFetch conds rows_per_page (offsetFor page) with
      | .error msg => (.fetchFailed msg, [.count, .fetch])
      | .ok rows => (.display ⟨rows, total_count, page⟩, [.count, .fetch])

/-- One whole run of the script: the startup check that `glob` found at least
one CSV file (else `st.error` + `st.stop`), then widget collection and
`resolve`. -/
def run (csv_files : List String) (mode : DateMode)
    (userSingle userStart userEnd : Option Nat) (today : Nat)
    (cik_input : String) (requestedPage : Nat) (engine : Engine) :
    Outcome × List QueryKind :=
  if csv_files.isEmpty then (.corpusEmpty, [])
  else
    resolve
      (filter_conditions mode (date_input userSingle today)
        (date_input userStart today) (date_input userEnd today) cik_input)
      requestedPage engine

/-- The engine semantics of the generated SQL over an in-memory corpus: both
queries always succeed, the count is `countQuery`, the fetch is the ordered
slice `fetchQuery`. -/
def realEngine (corpus : List Row) : Engine :=
  ⟨fun conds => .ok (countQuery corpus conds),
   fun conds lim off => .ok (fetchQuery corpus conds lim off)⟩

/-! ## CSV export (`df.to_csv(index=False).encode("utf-8")`)

The export is modelled at the character level: `df.to_csv` with pandas
defaults writes a header record and one record per row, fields separated by
`,`, records terminated by `\n`, and quotes a field exactly when it contains
the delimiter, the quote character or a line break (QUOTE_MINIMAL), doubling
any quote character inside a quoted field.  UTF-8 encoding of the resulting
string is injective, so the round-trip is stated on the string. -/

/-- Pandas QUOTE_MINIMAL: a field needs quoting iff it contains the delimiter,
the quote character, or a line break. -/
def needsQuoting (s : String) : Bool :=
  s.data.any (fun c => c == ',' || c == '"' || c == '\n' || c == '\r')

/-- Double every quote character, for the inside of a quoted field. -/
def escapeChars : List Char → List Char
  | [] => []
  | c :: cs => if c = '"' then '"' :: '"' :: escapeChars cs else c :: escapeChars cs

/-- Render one CSV field: bare when no quoting is needed, otherwise wrapped in
quotes with inner quotes doubled. -/
def renderField (s : String) : List Char :=
  if needsQuoting s then '"' :: (escapeChars s.data ++ ['"']) else s.data

/-- Render one CSV record: the fields joined by `,` (no terminator). -/
def renderRecord : List String → List Char
  | [] => []
  | [f] => renderField f
  | f :: g :: rest => renderField f ++ ',' :: renderRecord (g :: rest)

/-- Render a CSV document: each record followed by `\n`. -/
def renderCSV : List (List String) → List Char
  | [] => []
  | r :: rest => renderRecord r ++ '\n' :: renderCSV rest

/-- The header record of the exported dataframe: the SELECT list column names
(`Company Name` was aliased to `Company_Name`). -/
def headerRecord : List String :=
  ["date", "cik", "Company_Name", "total_records", "defm14a", "sc13e3a",
   "sc13e3", "10q", "10-q", "8k", "form4", "10k", "10-k", "proxy", "ownership"]

/-- The cell strings of one fetched row, in column order; integer columns
render in decimal, the date column as its (ISO-ordered) value. -/
def recordOfRow (r : OutRow) : List String :=
  [natString r.date, natString r.cik, r.companyName, natString r.total_records,
   natString r.defm14a, natString r.sc13e3a, natString r.sc13e3,
   natString r.f10q, natString r.f10_q, natString r.f8k, natString r.form4,
   natString r.f10k, natString r.f10_k, natString r.proxy,
   natString r.ownership]

/-- The exported byte stream of the current page, as a string:
`df.to_csv(index=False)` — header record then one record per fetched row. -/
def exportCSV (rows : List OutRow) : String :=
  String.mk (renderCSV (headerRecord :: rows.map recordOfRow))

/-- Parser mode of the CSV reader: inside an unquoted field (or at a field
boundary), inside a quoted field, or just past the closing quote of a quoted
field. -/
inductive CSVMode where
  | unquoted
  | quoted
  | closed
deriving DecidableEq

/-- State of the CSV reader: completed records, fields of the current record,
characters of the current field, and the mode. -/
structure CSVState where
  records : List (List String)
  curFields : List String
  curField : List Char
  mode : CSVMode
deriving DecidableEq

/-- Close the current field and append it to the current record. -/
def pushField (st : CSVState) : CSVState :=
  ⟨st.records, st.curFields ++ [String.mk st.curField], [], .unquoted⟩

/-- Close the current field and record and append the record. -/
def pushRecord (st : CSVState) : CSVState :=
  ⟨st.records ++ [st.curFields ++ [String.mk st.curField]], [], [], .unquoted⟩

/-- One character of CSV reading (RFC 4180 with `\n` records): `none` on
malformed input (a stray character right after a closing quote). -/
def csvStep (st : CSVState) (c : Char) : Option CSVState :=
  match st.mode with
  | .quoted =>
    if c = '"' then some ⟨st.records, st.curFields, st.curField, .closed⟩
    else some ⟨st.records, st.curFields, st.curField ++ [c], .quoted⟩
  | .closed =>
    if c = '"' then some ⟨st.records, st.curFields, st.curField ++ ['"'], .quoted⟩
    else if c = ',' then some (pushField st)
    else if c = '\n' then some (pushRecord st)
    else none
  | .unquoted =>
    if c = '"' ∧ st.curField = [] then
      some ⟨st.records, st.curFields, [], .quoted⟩
    else if c = ',' then some (pushField st)
    else if c = '\n' then some (pushRecord st)
    else some ⟨st.records, st.curFields, st.curField ++ [c], .unquoted⟩

/-- Run the CSV reader over a character list. -/
def runCSV (st : CSVState) : List Char → Option CSVState
  | [] => some st
  | c :: cs =>
    match csvStep st c with
    | none => none
    | some st2 => runCSV st2 cs

/-- End of input: a still-open quoted field is malformed; pending characters or
fields form a final unterminated record; otherwise the records are complete. -/
def csvFinalize (st : CSVState) : Option (List (List String)) :=
  match st.mode with
  | .quoted => none
  | .closed => some (pushRecord st).records
  | .unquoted =>
    if st.curField = [] ∧ st.curFields = [] then some st.records
    else some (pushRecord st).records

/-- The initial reader state. -/
def csvInit : CSVState := ⟨[], [], [], .unquoted⟩

/-- Parse a CSV document into its records. -/
def parseCSV (s : String) : Option (List (List String)) :=
  match runCSV csvInit s.data with
  | none => none
  | some st => csvFinalize st

/-- Decimal digit test used when reading integer cells back. -/
def isDigitCh (c : Char) : Bool :=
  decide (48 ≤ c.toNat) && decide (c.toNat ≤ 57)

/-- Accumulator form of decimal reading; fails on a non-digit. -/
def digitsToNatAux (acc : Nat) : List Char → Option Nat
  | [] => some acc
  | c :: cs =>
    if isDigitCh c then digitsToNatAux (acc * 10 + (c.toNat - 48)) cs else none

/-- Read a natural from its decimal digits; fails on empty or non-digit input. -/
def digitsToNat : List Char → Option Nat
  | [] => none
  | c :: cs => digitsToNatAux 0 (c :: cs)

/-- Read a natural from a decimal cell string. -/
def parseNatCell (s : String) : Option Nat :=
  digitsToNat s.data

/-- Rebuild a fetched row from its parsed CSV record: the inverse direction of
`recordOfRow`. -/
def rowOfRecord (rec : List String) : Option OutRow :=
  match rec with
  | [d, ck, nm, tr, a1, a2, a3, a4, a5, a6, a7, a8, a9, a10, a11] =>
    match parseNatCell d, parseNatCell ck, parseNatCell tr, parseNatCell a1,
        parseNatCell a2, parseNatCell a3, parseNatCell a4, parseNatCell a5,
        parseNatCell a6, parseNatCell a7, parseNatCell a8, parseNatCell a9,
        parseNatCell a10, parseNatCell a11 with
    | some vd, some vck, some vtr, some v1, some v2, some v3, some v4, some v5,
      some v6, some v7, some v8, some v9, some v10, some v11 =>
      some ⟨vd, vck, nm, vtr, v1, v2, v3, v4, v5, v6, v7, v8, v9, v10, v11⟩
    | _, _, _, _, _, _, _, _, _, _, _, _, _, _ => none
  | _ => none

/-! ## Helper lemmas -/

/-- Structure eta for strings: rebuilding a string from its characters is the
identity. -/
theorem mk_data (s : String) : String.mk s.data = s := rfl

/-- The accumulated filter list is empty exactly when no date mode is selected
and the CIK input is empty. -/
theorem filter_conditions_eq_nil_iff (mode : DateMode)
    (sd s e : Nat) (ident : String) :
    filter_conditions mode sd s e ident = [] ↔
      (mode = DateMode.noDateFilter ∧ ident = "") := by
  unfold filter_conditions
  cases mode <;> split <;> simp_all

/-- With a non-empty filter list, the in-memory engine drives `resolve` to a
displayed page built from the count and the ordered slice, after issuing
exactly the count query then the fetch query. -/
theorem resolve_realEngine_eq (corpus : List Row) (conds : List FilterCriterion)
    (requestedPage : Nat) (h : conds ≠ []) :
    resolve conds requestedPage (realEngine corpus) =
      (.display
        ⟨fetchQuery corpus conds rows_per_page
            (offsetFor (effectivePage requestedPage
              (max_page (countQuery corpus conds)))),
          countQuery corpus conds,
          effectivePage requestedPage (max_page (countQuery corpus conds))⟩,
        [.count, .fetch]) := by
  unfold resolve realEngine
  simp [List.isEmpty_iff, h]

/-- With a non-empty filter list, `resolve` never halts at the filter gate,
whatever the engine does. -/
theorem resolve_ne_awaiting (conds : List FilterCriterion) (requestedPage : Nat)
    (engine : Engine) (h : conds ≠ []) :
    (resolve conds requestedPage engine).1 ≠ Outcome.awaitingFilter := by
  unfold resolve
  rw [if_neg (by simpa [List.isEmpty_iff] using h)]
  split
  · simp
  · dsimp only
    split <;> simp

/-! ## Claims -/

/-- Claim C1: with "No Date Filter" selected and an empty CIK input, the run
halts at the gate with the filter prompt (`st.info` then `st.stop`) and issues
neither the count query nor the fetch query. -/
theorem gate_no_filter_halts (csv_files : List String)
    (uS uA uB : Option Nat) (today requestedPage : Nat) (engine : Engine)
    (h : csv_files ≠ []) :
    run csv_files .noDateFilter uS uA uB today "" requestedPage engine =
      (.awaitingFilter, []) := by
  unfold run
  rw [if_neg (by simpa [List.isEmpty_iff] using h)]
  unfold resolve
  rw [if_pos]
  simp [filter_conditions]

/-- Witness for C1: a concrete run with one CSV file, no date filter and an
empty CIK halts with zero requests. -/
theorem gate_no_filter_halts_witness :
    run ["files/a.csv"] .noDateFilter none none none 20240101 "" 1
      (realEngine []) = (.awaitingFilter, []) :=
  gate_no_filter_halts ["files/a.csv"] none none none 20240101 1
    (realEngine []) (by decide)

/-- An engine whose count query raises. -/
def failCountEngine : Engine :=
  ⟨fun _ => .error "count boom", fun _ _ _ => .ok []⟩

/-- An engine whose count query succeeds with zero rows but whose fetch
raises. -/
def failFetchEngine : Engine :=
  ⟨fun _ => .ok 0, fun _ _ _ => .error "fetch boom"⟩

/-- Claim C7: every failure is caught at the interaction boundary and halts
that interaction with a user-visible message: an empty corpus stops the run
before any filter handling, a count-query failure stops it after issuing only
the count query, and a fetch-query failure stops it after the two queries; in
each case the outcome is the error message, never a displayed page, so no
partial results are shown. -/
theorem error_handling_boundary :
    (∀ (mode : DateMode) (uS uA uB : Option Nat) (today : Nat)
        (cik_input : String) (requestedPage : Nat) (engine : Engine),
      run [] mode uS uA uB today cik_input requestedPage engine =
        (.corpusEmpty, [])) ∧
    (∀ (conds : List FilterCriterion) (requestedPage : Nat) (engine : Engine)
        (msg : String), conds ≠ [] →
      engine.runCount conds = .error msg →
      resolve conds requestedPage engine = (.countFailed msg, [.count])) ∧
    (∀ (conds : List FilterCriterion) (requestedPage : Nat) (engine : Engine)
        (msg : String) (t : Nat), conds ≠ [] →
      engine.runCount conds = .ok t →
      engine.runFetch conds rows_per_page
          (offsetFor (effectivePage requestedPage (max_page t))) =
        .error msg →
      resolve conds requestedPage engine =
        (.fetchFailed msg, [.count, .fetch])) := by
  refine ⟨fun mode uS uA uB today ci rp engine => by simp [run], ?_, ?_⟩
  · intro conds rp engine msg h hc
    unfold resolve
    rw [if_neg (by simpa [List.isEmpty_iff] using h)]
    simp [hc]
  · intro conds rp engine msg t h hc hf
    unfold resolve
    rw [if_neg (by simpa [List.isEmpty_iff] using h)]
    simp [hc, hf]

/-- Witness for C7: the empty corpus, a failing count engine and a failing
fetch engine each produce the corresponding caught error at concrete inputs. -/
theorem error_handling_boundary_witness :
    run [] .noDateFilter none none none 20240101 "" 1 (realEngine []) =
      (.corpusEmpty, []) ∧
    resolve [.dateEquals 5] 1 failCountEngine =
      (.countFailed "count boom", [.count]) ∧
    resolve [.dateEquals 5] 1 failFetchEngine =
      (.fetchFailed "fetch boom", [.count, .fetch]) :=
  ⟨error_handling_boundary.1 .noDateFilter none none none 20240101 "" 1
      (realEngine []),
   error_handling_boundary.2.1 [.dateEquals 5] 1 failCountEngine "count boom"
      (by decide) rfl,
   error_handling_boundary.2.2 [.dateEquals 5] 1 failFetchEngine "fetch boom" 0
      (by decide) rfl rfl⟩

/-- The `ORDER BY date, cik` comparison is transitive. -/
theorem orderKeyLe_trans (a b c : OutRow) (h1 : orderKeyLe a b = true)
    (h2 : orderKeyLe b c = true) : orderKeyLe a c = true := by
  simp only [orderKeyLe, Bool.or_eq_true, Bool.and_eq_true,
    decide_eq_true_eq] at *
  omega

/-- The `ORDER BY date, cik` comparison is total. -/
theorem orderKeyLe_total (a b : OutRow) :
    (orderKeyLe a b || orderKeyLe b a) = true := by
  simp only [orderKeyLe, Bool.or_eq_true, Bool.and_eq_true,
    decide_eq_true_eq]
  omega

/-- The ordered view is pairwise non-decreasing under the order key. -/
theorem sortedMatches_pairwise (corpus : List Row)
    (conds : List FilterCriterion) :
    (sortedMatches corpus conds).Pairwise
      (fun a b => orderKeyLe a b = true) := by
  unfold sortedMatches
  exact List.sorted_mergeSort orderKeyLe_trans orderKeyLe_total _

/-- Every fetched slice is pairwise non-decreasing by `(date, cik)`. -/
theorem fetchQuery_pairwise (corpus : List Row) (conds : List FilterCriterion)
    (lim off : Nat) :
    (fetchQuery corpus conds lim off).Pairwise
      (fun a b => a.date < b.date ∨ (a.date = b.date ∧ a.cik ≤ b.cik)) := by
  have hs := (sortedMatches_pairwise corpus conds).imp
    (fun h => by
      simpa only [orderKeyLe, Bool.or_eq_true, Bool.and_eq_true,
        decide_eq_true_eq] using h)
  exact hs.sublist
    ((List.take_sublist _ _).trans (List.drop_sublist _ _))

/-- Claim C6: the rows of every fetched page are non-decreasing by the key
`(date, cik)` — date ascending, then cik ascending — both for any slice of the
ordered view and for the rows of any page the resolver displays. -/
theorem fetch_ordering :
    (∀ (corpus : List Row) (conds : List FilterCriterion) (lim off : Nat),
      (fetchQuery corpus conds lim off).Pairwise
        (fun a b => a.date < b.date ∨ (a.date = b.date ∧ a.cik ≤ b.cik))) ∧
    (∀ (corpus : List Row) (conds : List FilterCriterion)
        (requestedPage : Nat) (page : ResultPage) (qs : List QueryKind),
      resolve conds requestedPage (realEngine corpus) = (.display page, qs) →
      page.rows.Pairwise
        (fun a b => a.date < b.date ∨ (a.date = b.date ∧ a.cik ≤ b.cik))) := by
  refine ⟨fetchQuery_pairwise, ?_⟩
  intro corpus conds requestedPage page qs hres
  by_cases h : conds = []
  · subst h
    simp [resolve] at hres
  · rw [resolve_realEngine_eq corpus conds requestedPage h] at hres
    have hp : page = ResultPage.mk
        (fetchQuery corpus conds rows_per_page
          (offsetFor (effectivePage requestedPage
            (max_page (countQuery corpus conds)))))
        (countQuery corpus conds)
        (effectivePage requestedPage (max_page (countQuery corpus conds))) := by
      have := congrArg Prod.fst hres
      simp at this
      exact this.symm
    rw [hp]
    exact fetchQuery_pairwise corpus conds _ _

/-- Witness for C6: a concrete slice and a concrete resolved page are pairwise
non-decreasing by the key. -/
theorem fetch_ordering_witness :
    (fetchQuery [] [] 1 0).Pairwise
      (fun a b => a.date < b.date ∨ (a.date = b.date ∧ a.cik ≤ b.cik)) ∧
    (ResultPage.mk
        [selectRow ⟨5, 9, none, 0, 0, 0, 0, 0, 0, 0, 0, 0, 0, 0, 0⟩] 1 1).rows.Pairwise
      (fun a b => a.date < b.date ∨ (a.date = b.date ∧ a.cik ≤ b.cik)) :=
  ⟨fetch_ordering.1 [] [] 1 0,
   fetch_ordering.2 [⟨5, 9, none, 0, 0, 0, 0, 0, 0, 0, 0, 0, 0, 0, 0⟩]
      [.dateEquals 5] 1
      ⟨[selectRow ⟨5, 9, none, 0, 0, 0, 0, 0, 0, 0, 0, 0, 0, 0, 0⟩], 1, 1⟩
      [.count, .fetch]
      (by
        rw [resolve_realEngine_eq _ _ _ (by decide)]
        simp [countQuery, matchesAll, rowMatches, fetchQuery, sortedMatches,
          effectivePage, max_page, rows_per_page, offsetFor])⟩

/-- Arithmetic bounds of the page count for a positive total. -/
theorem max_page_pos_bounds (t : Nat) (ht : 0 < t) :
    (max_page t - 1) * 10000 < t ∧ t ≤ max_page t * 10000 := by
  unfold max_page rows_per_page
  rw [if_pos ht]
  omega

/-- The page count for an empty result is one. -/
theorem max_page_zero_eq : max_page 0 = 1 := rfl

/-- The ordered view has exactly `total_count` rows. -/
theorem sortedMatches_length (corpus : List Row)
    (conds : List FilterCriterion) :
    (sortedMatches corpus conds).length = countQuery corpus conds := by
  unfold sortedMatches countQuery
  simp

/-- Claim C2: for every total count and every requested page number, the
effective page is clamped into `[1, max_page]`, the page count is
`max(1, ceil(total/10000))`, the fetch offset is `(effectivePage - 1) *
10000`, and with the real engine the displayed page is fetched at exactly that
offset. -/
theorem pagination_bound (total_count requestedPage : Nat) :
    (1 ≤ effectivePage requestedPage (max_page total_count) ∧
      effectivePage requestedPage (max_page total_count) ≤
        max_page total_count) ∧
    max_page total_count = max 1 ((total_count + 9999) / 10000) ∧
    offsetFor (effectivePage requestedPage (max_page total_count)) =
      (effectivePage requestedPage (max_page total_count) - 1) * 10000 ∧
    (∀ (corpus : List Row) (conds : List FilterCriterion), conds ≠ [] →
      (resolve conds requestedPage (realEngine corpus)).1 =
        .display
          ⟨fetchQuery corpus conds rows_per_page
              (offsetFor (effectivePage requestedPage
                (max_page (countQuery corpus conds)))),
            countQuery corpus conds,
            effectivePage requestedPage (max_page (countQuery corpus conds))⟩) := by
  refine ⟨?_, ?_, rfl, ?_⟩
  · unfold effectivePage max_page rows_per_page
    split <;> omega
  · unfold max_page rows_per_page
    split <;> omega
  · intro corpus conds h
    rw [resolve_realEngine_eq corpus conds requestedPage h]

/-- Witness for C2: concrete clamping at total 0 and requested page 5, and a
concrete resolved display. -/
theorem pagination_bound_witness :
    (1 ≤ effectivePage 5 (max_page 0) ∧
      effectivePage 5 (max_page 0) ≤ max_page 0) ∧
    (resolve [.dateEquals 3] 5 (realEngine [])).1 =
      .display
        ⟨fetchQuery [] [.dateEquals 3] rows_per_page
            (offsetFor (effectivePage 5
              (max_page (countQuery [] [.dateEquals 3])))),
          countQuery [] [.dateEquals 3],
          effectivePage 5 (max_page (countQuery [] [.dateEquals 3]))⟩ :=
  ⟨(pagination_bound 0 5).1,
   (pagination_bound 0 5).2.2.2 [] [.dateEquals 3] (by decide)⟩

/-- Claim C3: for a non-empty filter set and any effective page `p` in
`[1, max_page]`, the fetched page is rows `(p-1)*10000 + 1 .. ` of the ordered
view; every page before the last has exactly 10000 rows, and the last page has
`total_count - (max_page - 1) * 10000` rows (so 25000 matching rows give
`max_page = 3` and page 3 holds the 5000 rows 20001-25000). -/
theorem page_row_count (corpus : List Row) (conds : List FilterCriterion)
    (p : Nat) (_hconds : conds ≠ []) (hp1 : 1 ≤ p)
    (hp2 : p ≤ max_page (countQuery corpus conds)) :
    (fetchQuery corpus conds rows_per_page (offsetFor p) =
      ((sortedMatches corpus conds).drop ((p - 1) * 10000)).take 10000) ∧
    (p < max_page (countQuery corpus conds) →
      (fetchQuery corpus conds rows_per_page (offsetFor p)).length = 10000) ∧
    (p = max_page (countQuery corpus conds) →
      (fetchQuery corpus conds rows_per_page (offsetFor p)).length =
        countQuery corpus conds -
          (max_page (countQuery corpus conds) - 1) * 10000) := by
  have hlen : (sortedMatches corpus conds).length = countQuery corpus conds :=
    sortedMatches_length corpus conds
  refine ⟨rfl, ?_, ?_⟩
  · intro hlt
    unfold fetchQuery
    rw [List.length_take, List.length_drop, hlen]
    by_cases ht : 0 < countQuery corpus conds
    · have hb := max_page_pos_bounds (countQuery corpus conds) ht
      simp only [rows_per_page, offsetFor]
      omega
    · have ht0 : countQuery corpus conds = 0 := by omega
      rw [ht0, max_page_zero_eq] at hlt hp2
      omega
  · intro heq
    unfold fetchQuery
    rw [List.length_take, List.length_drop, hlen]
    by_cases ht : 0 < countQuery corpus conds
    · have hb := max_page_pos_bounds (countQuery corpus conds) ht
      simp only [rows_per_page, offsetFor]
      omega
    · have ht0 : countQuery corpus conds = 0 := by omega
      rw [ht0, max_page_zero_eq] at heq hp2 ⊢
      simp only [rows_per_page, offsetFor]
      omega

/-- Witness for C3: a one-row corpus with a matching single-date filter has one
page, which is the first slice of the ordered view and carries
`1 - 0 * 10000 = 1` row. -/
theorem page_row_count_witness :
    (fetchQuery [⟨5, 9, none, 0, 0, 0, 0, 0, 0, 0, 0, 0, 0, 0, 0⟩]
        [.dateEquals 5] rows_per_page (offsetFor 1) =
      ((sortedMatches [⟨5, 9, none, 0, 0, 0, 0, 0, 0, 0, 0, 0, 0, 0, 0⟩]
          [.dateEquals 5]).drop ((1 - 1) * 10000)).take 10000) ∧
    (1 < max_page (countQuery [⟨5, 9, none, 0, 0, 0, 0, 0, 0, 0, 0, 0, 0, 0, 0⟩]
        [.dateEquals 5]) →
      (fetchQuery [⟨5, 9, none, 0, 0, 0, 0, 0, 0, 0, 0, 0, 0, 0, 0⟩]
          [.dateEquals 5] rows_per_page (offsetFor 1)).length = 10000) ∧
    (1 = max_page (countQuery [⟨5, 9, none, 0, 0, 0, 0, 0, 0, 0, 0, 0, 0, 0, 0⟩]
        [.dateEquals 5]) →
      (fetchQuery [⟨5, 9, none, 0, 0, 0, 0, 0, 0, 0, 0, 0, 0, 0, 0⟩]
          [.dateEquals 5] rows_per_page (offsetFor 1)).length =
        countQuery [⟨5, 9, none, 0, 0, 0, 0, 0, 0, 0, 0, 0, 0, 0, 0⟩]
            [.dateEquals 5] -
          (max_page (countQuery [⟨5, 9, none, 0, 0, 0, 0, 0, 0, 0, 0, 0, 0, 0, 0⟩]
              [.dateEquals 5]) - 1) * 10000) :=
  page_row_count [⟨5, 9, none, 0, 0, 0, 0, 0, 0, 0, 0, 0, 0, 0, 0⟩]
    [.dateEquals 5] 1 (by decide) (by decide) (by decide)

/-- Claim C10: the run halts at the filter gate exactly when the mode is "No
Date Filter" and the CIK input is empty; in Single/Range mode the date widgets
default to today, so a date criterion is always emitted, the filter set is
non-empty, and with the real engine both queries are issued even with an empty
CIK input. -/
theorem halt_iff_no_filter (csv_files : List String) (mode : DateMode)
    (uS uA uB : Option Nat) (today : Nat) (cik_input : String)
    (requestedPage : Nat) (engine : Engine) (h : csv_files ≠ []) :
    ((run csv_files mode uS uA uB today cik_input requestedPage engine).1 =
        .awaitingFilter ↔ (mode = DateMode.noDateFilter ∧ cik_input = "")) ∧
    (mode ≠ DateMode.noDateFilter →
      filter_conditions mode (date_input uS today) (date_input uA today)
          (date_input uB today) cik_input ≠ [] ∧
      ∀ corpus : List Row,
        (run csv_files mode uS uA uB today cik_input requestedPage
            (realEngine corpus)).2 = [.count, .fetch]) := by
  have hrun : ∀ e : Engine,
      run csv_files mode uS uA uB today cik_input requestedPage e =
        resolve (filter_conditions mode (date_input uS today)
            (date_input uA today) (date_input uB today) cik_input)
          requestedPage e := by
    intro e
    unfold run
    rw [if_neg (by simpa [List.isEmpty_iff] using h)]
  constructor
  · rw [hrun]
    constructor
    · intro hout
      by_contra hnot
      exact resolve_ne_awaiting _ _ _
        (fun hnil => hnot ((filter_conditions_eq_nil_iff _ _ _ _ _).1 hnil))
        hout
    · intro hcase
      rw [(filter_conditions_eq_nil_iff _ _ _ _ _).2 hcase]
      rfl
  · intro hmode
    have hne : filter_conditions mode (date_input uS today)
        (date_input uA today) (date_input uB today) cik_input ≠ [] :=
      fun hnil => hmode ((filter_conditions_eq_nil_iff _ _ _ _ _).1 hnil).1
    refine ⟨hne, fun corpus => ?_⟩
    rw [hrun, resolve_realEngine_eq _ _ _ hne]

/-- Witness for C10: with one CSV file, Single Date mode, no user-typed date
(so the widget defaults) and an empty CIK, the halt characterization holds and
both queries are issued. -/
theorem halt_iff_no_filter_witness :
    ((run ["files/a.csv"] .single none none none 20240101 "" 1
        (realEngine [])).1 = .awaitingFilter ↔
      (DateMode.single = DateMode.noDateFilter ∧ "" = "")) ∧
    (DateMode.single ≠ DateMode.noDateFilter →
      filter_conditions .single (date_input none 20240101)
          (date_input none 20240101) (date_input none 20240101) "" ≠ [] ∧
      ∀ corpus : List Row,
        (run ["files/a.csv"] .single none none none 20240101 "" 1
            (realEngine corpus)).2 = [.count, .fetch]) :=
  halt_iff_no_filter ["files/a.csv"] .single none none none 20240101 "" 1
    (realEngine []) (by decide)

/-- Claim C4: a non-empty CIK input emits the exact-equality criterion, and
that criterion selects precisely the rows whose `cik`, cast to its decimal
text, is string-equal to the input — no partial matching and no normalization
of leading zeros. -/
theorem identifier_exact_match (cik_input : String) (h : cik_input ≠ "") :
    (∀ (mode : DateMode) (sd s e : Nat),
      FilterCriterion.identifierEquals cik_input ∈
        filter_conditions mode sd s e cik_input) ∧
    (∀ r : Row,
      rowMatches (.identifierEquals cik_input) r = true ↔
        natString r.cik = cik_input) := by
  constructor
  · intro mode sd s e
    unfold filter_conditions
    rw [if_neg h]
    cases mode <;> simp
  · intro r
    simp [rowMatches]

/-- Witness for C4: the zero-padded input `"0000012345"` is emitted as an exact
criterion; it matches a row with that exact text cast and not the row whose
cik casts to `"12345"`. -/
theorem identifier_exact_match_witness :
    FilterCriterion.identifierEquals "0000012345" ∈
      filter_conditions .noDateFilter 0 0 0 "0000012345" ∧
    (rowMatches (.identifierEquals "0000012345")
        ⟨0, 12345, none, 0, 0, 0, 0, 0, 0, 0, 0, 0, 0, 0, 0⟩ = true ↔
      natString (Row.mk 0 12345 none 0 0 0 0 0 0 0 0 0 0 0 0).cik =
        "0000012345") :=
  ⟨(identifier_exact_match "0000012345" (by decide)).1 .noDateFilter 0 0 0,
   (identifier_exact_match "0000012345" (by decide)).2
      ⟨0, 12345, none, 0, 0, 0, 0, 0, 0, 0, 0, 0, 0, 0, 0⟩⟩

/-- Claim C5: in Range mode the `DateRange` criterion is emitted as the first
condition once both bounds are present, with no check that the start precedes
the end; both bounds compare inclusively; and an inverted range flows through
to a displayed page with zero matching rows, `total_count = 0`, page 1, and no
error. -/
theorem date_range_semantics :
    (∀ (sd s e : Nat) (ident : String),
      (filter_conditions .range sd s e ident).head? =
        some (.dateRange s e)) ∧
    (∀ (s e : Nat) (r : Row),
      rowMatches (.dateRange s e) r = true ↔ (s ≤ r.date ∧ r.date ≤ e)) ∧
    (∀ (corpus : List Row) (sd s e requestedPage : Nat), e < s →
      resolve (filter_conditions .range sd s e "") requestedPage
          (realEngine corpus) =
        (.display ⟨[], 0, 1⟩, [.count, .fetch])) := by
  refine ⟨?_, ?_, ?_⟩
  · intro sd s e ident
    simp [filter_conditions]
  · intro s e r
    simp [rowMatches]
  · intro corpus sd s e requestedPage hinv
    have hconds : filter_conditions .range sd s e "" = [.dateRange s e] := by
      unfold filter_conditions
      simp
    rw [hconds]
    have hfil : corpus.filter (matchesAll [.dateRange s e]) = [] := by
      rw [List.filter_eq_nil_iff]
      intro r _
      simp [matchesAll, rowMatches]
      omega
    have hcount : countQuery corpus [.dateRange s e] = 0 := by
      unfold countQuery
      rw [hfil]
      rfl
    rw [resolve_realEngine_eq corpus [.dateRange s e] requestedPage
      (by simp)]
    unfold fetchQuery sortedMatches
    rw [hfil, hcount]
    have hpage : effectivePage requestedPage (max_page 0) = 1 := by
      unfold effectivePage max_page rows_per_page
      split <;> omega
    rw [hpage]
    simp

/-- Witness for C5: at a concrete inverted range (start 20240601, end
20240101) over a one-row corpus, the criterion is emitted first, bounds are
inclusive, and the resolved page is empty with zero count and no error. -/
theorem date_range_semantics_witness :
    (filter_conditions .range 0 20240601 20240101 "x").head? =
      some (.dateRange 20240601 20240101) ∧
    (rowMatches (.dateRange 20240601 20240101)
        ⟨20240215, 1, none, 0, 0, 0, 0, 0, 0, 0, 0, 0, 0, 0, 0⟩ = true ↔
      (20240601 ≤ (Row.mk 20240215 1 none 0 0 0 0 0 0 0 0 0 0 0 0).date ∧
        (Row.mk 20240215 1 none 0 0 0 0 0 0 0 0 0 0 0 0).date ≤ 20240101)) ∧
    resolve (filter_conditions .range 0 20240601 20240101 "") 1
        (realEngine [⟨20240215, 1, none, 0, 0, 0, 0, 0, 0, 0, 0, 0, 0, 0, 0⟩]) =
      (.display ⟨[], 0, 1⟩, [.count, .fetch]) :=
  ⟨date_range_semantics.1 0 20240601 20240101 "x",
   date_range_semantics.2.1 20240601 20240101
      ⟨20240215, 1, none, 0, 0, 0, 0, 0, 0, 0, 0, 0, 0, 0, 0⟩,
   date_range_semantics.2.2
      [⟨20240215, 1, none, 0, 0, 0, 0, 0, 0, 0, 0, 0, 0, 0, 0⟩]
      0 20240601 20240101 1 (by decide)⟩

/-- Claim C8: a source row with a missing `Company Name` is selected with the
fixed placeholder `"Unknown"` in that column, and every other column of the
row is passed through unchanged. -/
theorem company_name_placeholder (r : Row) (h : r.companyName = none) :
    (selectRow r).companyName = "Unknown" ∧
    (selectRow r).date = r.date ∧
    (selectRow r).cik = r.cik ∧
    (selectRow r).total_records = r.total_records ∧
    (selectRow r).defm14a = r.defm14a ∧
    (selectRow r).sc13e3a = r.sc13e3a ∧
    (selectRow r).sc13e3 = r.sc13e3 ∧
    (selectRow r).f10q = r.f10q ∧
    (selectRow r).f10_q = r.f10_q ∧
    (selectRow r).f8k = r.f8k ∧
    (selectRow r).form4 = r.form4 ∧
    (selectRow r).f10k = r.f10k ∧
    (selectRow r).f10_k = r.f10_k ∧
    (selectRow r).proxy = r.proxy ∧
    (selectRow r).ownership = r.ownership := by
  simp [selectRow, h]

/-- Witness for C8: a concrete row missing its company name is selected with
the placeholder and otherwise unchanged. -/
theorem company_name_placeholder_witness :
    (selectRow ⟨7, 42, none, 3, 1, 0, 1, 0, 1, 0, 1, 0, 1, 0, 1⟩).companyName =
        "Unknown" ∧
    (selectRow ⟨7, 42, none, 3, 1, 0, 1, 0, 1, 0, 1, 0, 1, 0, 1⟩).date =
        (Row.mk 7 42 none 3 1 0 1 0 1 0 1 0 1 0 1).date ∧
    (selectRow ⟨7, 42, none, 3, 1, 0, 1, 0, 1, 0, 1, 0, 1, 0, 1⟩).cik =
        (Row.mk 7 42 none 3 1 0 1 0 1 0 1 0 1 0 1).cik ∧
    (selectRow ⟨7, 42, none, 3, 1, 0, 1, 0, 1, 0, 1, 0, 1, 0, 1⟩).total_records =
        (Row.mk 7 42 none 3 1 0 1 0 1 0 1 0 1 0 1).total_records ∧
    (selectRow ⟨7, 42, none, 3, 1, 0, 1, 0, 1, 0, 1, 0, 1, 0, 1⟩).defm14a =
        (Row.mk 7 42 none 3 1 0 1 0 1 0 1 0 1 0 1).defm14a ∧
    (selectRow ⟨7, 42, none, 3, 1, 0, 1, 0, 1, 0, 1, 0, 1, 0, 1⟩).sc13e3a =
        (Row.mk 7 42 none 3 1 0 1 0 1 0 1 0 1 0 1).sc13e3a ∧
    (selectRow ⟨7, 42, none, 3, 1, 0, 1, 0, 1, 0, 1, 0, 1, 0, 1⟩).sc13e3 =
        (Row.mk 7 42 none 3 1 0 1 0 1 0 1 0 1 0 1).sc13e3 ∧
    (selectRow ⟨7, 42, none, 3, 1, 0, 1, 0, 1, 0, 1, 0, 1, 0, 1⟩).f10q =
        (Row.mk 7 42 none 3 1 0 1 0 1 0 1 0 1 0 1).f10q ∧
    (selectRow ⟨7, 42, none, 3, 1, 0, 1, 0, 1, 0, 1, 0, 1, 0, 1⟩).f10_q =
        (Row.mk 7 42 none 3 1 0 1 0 1 0 1 0 1 0 1).f10_q ∧
    (selectRow ⟨7, 42, none, 3, 1, 0, 1, 0, 1, 0, 1, 0, 1, 0, 1⟩).f8k =
        (Row.mk 7 42 none 3 1 0 1 0 1 0 1 0 1 0 1).f8k ∧
    (selectRow ⟨7, 42, none, 3, 1, 0, 1, 0, 1, 0, 1, 0, 1, 0, 1⟩).form4 =
        (Row.mk 7 42 none 3 1 0 1 0 1 0 1 0 1 0 1).form4 ∧
    (selectRow ⟨7, 42, none, 3, 1, 0, 1, 0, 1, 0, 1, 0, 1, 0, 1⟩).f10k =
        (Row.mk 7 42 none 3 1 0 1 0 1 0 1 0 1 0 1).f10k ∧
    (selectRow ⟨7, 42, none, 3, 1, 0, 1, 0, 1, 0, 1, 0, 1, 0, 1⟩).f10_k =
        (Row.mk 7 42 none 3 1 0 1 0 1 0 1 0 1 0 1).f10_k ∧
    (selectRow ⟨7, 42, none, 3, 1, 0, 1, 0, 1, 0, 1, 0, 1, 0, 1⟩).proxy =
        (Row.mk 7 42 none 3 1 0 1 0 1 0 1 0 1 0 1).proxy ∧
    (selectRow ⟨7, 42, none, 3, 1, 0, 1, 0, 1, 0, 1, 0, 1, 0, 1⟩).ownership =
        (Row.mk 7 42 none 3 1 0 1 0 1 0 1 0 1 0 1).ownership :=
  company_name_placeholder ⟨7, 42, none, 3, 1, 0, 1, 0, 1, 0, 1, 0, 1, 0, 1⟩ rfl

/-! ## CSV reader lemmas for the export round-trip -/

/-- Plain characters (no delimiter, quote, newline or carriage return) are
accumulated one by one onto the current unquoted field. -/
theorem runCSV_unquoted (f : List Char)
    (hf : ∀ c ∈ f, ¬(c = ',' ∨ c = '"' ∨ c = '\n' ∨ c = '\r')) :
    ∀ (recs : List (List String)) (flds : List String) (cur rest : List Char),
    runCSV ⟨recs, flds, cur, .unquoted⟩ (f ++ rest) =
      runCSV ⟨recs, flds, cur ++ f, .unquoted⟩ rest := by
  induction f with
  | nil => intro recs flds cur rest; simp
  | cons c cs ih =>
    intro recs flds cur rest
    have hc := hf c (by simp)
    push_neg at hc
    obtain ⟨h1, h2, h3, _⟩ := hc
    rw [List.cons_append, runCSV]
    have hstep : csvStep ⟨recs, flds, cur, .unquoted⟩ c =
        some ⟨recs, flds, cur ++ [c], .unquoted⟩ := by
      simp [csvStep, h1, h2, h3]
    rw [hstep]
    show runCSV ⟨recs, flds, cur ++ [c], .unquoted⟩ (cs ++ rest) = _
    rw [ih (fun d hd => hf d (by simp [hd])) recs flds (cur ++ [c]) rest,
      List.append_assoc]
    rfl

/-- Escaped characters are accumulated one by one onto the current quoted
field, a doubled quote becoming a single quote. -/
theorem runCSV_quoted (f : List Char) :
    ∀ (recs : List (List String)) (flds : List String) (cur rest : List Char),
    runCSV ⟨recs, flds, cur, .quoted⟩ (escapeChars f ++ rest) =
      runCSV ⟨recs, flds, cur ++ f, .quoted⟩ rest := by
  induction f with
  | nil => intro recs flds cur rest; simp [escapeChars]
  | cons c cs ih =>
    intro recs flds cur rest
    by_cases hc : c = '"'
    · subst hc
      rw [show escapeChars ('"' :: cs) = '"' :: '"' :: escapeChars cs from rfl]
      rw [List.cons_append, runCSV]
      rw [show csvStep ⟨recs, flds, cur, CSVMode.quoted⟩ '"' =
          some ⟨recs, flds, cur, CSVMode.closed⟩ from rfl]
      show runCSV ⟨recs, flds, cur, CSVMode.closed⟩
        ('"' :: (escapeChars cs ++ rest)) = _
      rw [runCSV]
      rw [show csvStep ⟨recs, flds, cur, CSVMode.closed⟩ '"' =
          some ⟨recs, flds, cur ++ ['"'], CSVMode.quoted⟩ from rfl]
      show runCSV ⟨recs, flds, cur ++ ['"'], CSVMode.quoted⟩
        (escapeChars cs ++ rest) = _
      rw [ih recs flds (cur ++ ['"']) rest, List.append_assoc]
      rfl
    · simp only [escapeChars]
      rw [if_neg hc, List.cons_append, runCSV]
      have hstep : csvStep ⟨recs, flds, cur, CSVMode.quoted⟩ c =
          some ⟨recs, flds, cur ++ [c], CSVMode.quoted⟩ := by
        simp [csvStep, hc]
      rw [hstep]
      show runCSV ⟨recs, flds, cur ++ [c], CSVMode.quoted⟩
        (escapeChars cs ++ rest) = _
      rw [ih recs flds (cur ++ [c]) rest, List.append_assoc]
      rfl

/-- Reading one rendered field from the start of a field leaves its characters
as the current field, in closed mode when the field was quoted. -/
theorem runCSV_field_state (recs : List (List String)) (flds : List String)
    (f : String) (rest : List Char) :
    runCSV ⟨recs, flds, [], .unquoted⟩ (renderField f ++ rest) =
      runCSV ⟨recs, flds, f.data,
        if needsQuoting f then CSVMode.closed else CSVMode.unquoted⟩ rest := by
  by_cases hq : needsQuoting f
  · rw [if_pos hq]
    unfold renderField
    rw [if_pos hq, List.cons_append, runCSV]
    rw [show csvStep ⟨recs, flds, [], CSVMode.unquoted⟩ '"' =
        some ⟨recs, flds, [], CSVMode.quoted⟩ from rfl]
    show runCSV ⟨recs, flds, [], CSVMode.quoted⟩
      ((escapeChars f.data ++ ['"']) ++ rest) = _
    rw [List.append_assoc]
    rw [runCSV_quoted f.data recs flds [] (['"'] ++ rest)]
    show runCSV ⟨recs, flds, [] ++ f.data, CSVMode.quoted⟩ ('"' :: rest) = _
    rw [runCSV]
    rw [show csvStep ⟨recs, flds, ([] : List Char) ++ f.data, CSVMode.quoted⟩ '"' =
        some ⟨recs, flds, ([] : List Char) ++ f.data, CSVMode.closed⟩ from rfl]
    show runCSV ⟨recs, flds, [] ++ f.data, CSVMode.closed⟩ rest = _
    rw [List.nil_append]
  · rw [if_neg hq]
    unfold renderField
    rw [if_neg hq]
    have hq' : needsQuoting f = false := by
      simpa using hq
    have hchars : ∀ c ∈ f.data, ¬(c = ',' ∨ c = '"' ∨ c = '\n' ∨ c = '\r') := by
      intro c hcmem
      unfold needsQuoting at hq'
      rw [List.any_eq_false] at hq'
      have h2 := hq' c hcmem
      simp at h2
      tauto
    rw [runCSV_unquoted f.data hchars recs flds [] rest, List.nil_append]

/-- A comma outside a quoted field closes the current field. -/
theorem runCSV_comma_step (recs : List (List String)) (flds : List String)
    (cur rest : List Char) (m : CSVMode) (hm : m ≠ .quoted) :
    runCSV ⟨recs, flds, cur, m⟩ (',' :: rest) =
      runCSV ⟨recs, flds ++ [String.mk cur], [], .unquoted⟩ rest := by
  cases m with
  | quoted => exact absurd rfl hm
  | closed =>
    rw [runCSV]
    rw [show csvStep ⟨recs, flds, cur, CSVMode.closed⟩ ',' =
        some ⟨recs, flds ++ [String.mk cur], [], CSVMode.unquoted⟩ from rfl]
  | unquoted =>
    rw [runCSV]
    rw [show csvStep ⟨recs, flds, cur, CSVMode.unquoted⟩ ',' =
        some ⟨recs, flds ++ [String.mk cur], [], CSVMode.unquoted⟩ from rfl]

/-- A newline outside a quoted field closes the current field and record. -/
theorem runCSV_newline_step (recs : List (List String)) (flds : List String)
    (cur rest : List Char) (m : CSVMode) (hm : m ≠ .quoted) :
    runCSV ⟨recs, flds, cur, m⟩ ('\n' :: rest) =
      runCSV ⟨recs ++ [flds ++ [String.mk cur]], [], [], .unquoted⟩ rest := by
  cases m with
  | quoted => exact absurd rfl hm
  | closed =>
    rw [runCSV]
    rw [show csvStep ⟨recs, flds, cur, CSVMode.closed⟩ '\n' =
        some ⟨recs ++ [flds ++ [String.mk cur]], [], [], CSVMode.unquoted⟩ from rfl]
  | unquoted =>
    rw [runCSV]
    rw [show csvStep ⟨recs, flds, cur, CSVMode.unquoted⟩ '\n' =
        some ⟨recs ++ [flds ++ [String.mk cur]], [], [], CSVMode.unquoted⟩ from rfl]

/-- Reading a rendered field followed by a comma appends exactly that field to
the current record. -/
theorem runCSV_field_comma (recs : List (List String)) (flds : List String)
    (f : String) (rest : List Char) :
    runCSV ⟨recs, flds, [], .unquoted⟩ (renderField f ++ ',' :: rest) =
      runCSV ⟨recs, flds ++ [f], [], .unquoted⟩ rest := by
  rw [runCSV_field_state, runCSV_comma_step recs flds f.data rest _
    (by split <;> decide), mk_data]

/-- Reading a rendered field followed by a newline appends the completed
record. -/
theorem runCSV_field_newline (recs : List (List String)) (flds : List String)
    (f : String) (rest : List Char) :
    runCSV ⟨recs, flds, [], .unquoted⟩ (renderField f ++ '\n' :: rest) =
      runCSV ⟨recs ++ [flds ++ [f]], [], [], .unquoted⟩ rest := by
  rw [runCSV_field_state, runCSV_newline_step recs flds f.data rest _
    (by split <;> decide), mk_data]

/-- Reading a rendered record followed by a newline appends exactly its fields
as one completed record. -/
theorem runCSV_record (fs : List String) :
    ∀ (recs : List (List String)) (pre : List String) (rest : List Char),
    fs ≠ [] →
    runCSV ⟨recs, pre, [], .unquoted⟩ (renderRecord fs ++ '\n' :: rest) =
      runCSV ⟨recs ++ [pre ++ fs], [], [], .unquoted⟩ rest := by
  induction fs with
  | nil => intro recs pre rest h; exact absurd rfl h
  | cons f gs ih =>
    intro recs pre rest _
    cases gs with
    | nil =>
      rw [show renderRecord [f] = renderField f from rfl,
        runCSV_field_newline]
    | cons g hs =>
      rw [show renderRecord (f :: g :: hs) =
          renderField f ++ ',' :: renderRecord (g :: hs) from rfl]
      rw [List.append_assoc, List.cons_append, runCSV_field_comma]
      rw [ih recs (pre ++ [f]) rest (by simp)]
      simp

/-- Reading a rendered document appends exactly its records. -/
theorem runCSV_doc (docs : List (List String)) :
    ∀ (recs : List (List String)) (rest : List Char),
    (∀ r ∈ docs, r ≠ []) →
    runCSV ⟨recs, [], [], .unquoted⟩ (renderCSV docs ++ rest) =
      runCSV ⟨recs ++ docs, [], [], .unquoted⟩ rest := by
  induction docs with
  | nil => intro recs rest _; simp [renderCSV]
  | cons d ds ih =>
    intro recs rest h
    rw [renderCSV, List.append_assoc, List.cons_append]
    rw [runCSV_record d recs [] (renderCSV ds ++ rest) (h d (by simp))]
    rw [List.nil_append]
    rw [ih (recs ++ [d]) rest (fun r hr => h r (by simp [hr]))]
    simp

/-- The power of ten matching the number of decimal digits of `n`. -/
def tenPow (n : Nat) : Nat :=
  if n < 10 then 10 else 10 * tenPow (n / 10)
termination_by n
decreasing_by exact Nat.div_lt_self (by omega) (by omega)

/-- Digit characters read back as their value. -/
theorem digitChar_spec (d : Nat) (hd : d < 10) :
    isDigitCh (digitChar d) = true ∧ (digitChar d).toNat - 48 = d := by
  interval_cases d <;> exact ⟨rfl, rfl⟩

/-- One digit step of decimal reading. -/
theorem digitsToNatAux_digitChar (a d : Nat) (tail : List Char) (hd : d < 10) :
    digitsToNatAux a (digitChar d :: tail) =
      digitsToNatAux (a * 10 + d) tail := by
  obtain ⟨h1, h2⟩ := digitChar_spec d hd
  rw [digitsToNatAux, if_pos h1, h2]

/-- Reading back the rendered digits of a positive natural shifts the
accumulator by the matching power of ten and adds the natural. -/
theorem digitsToNatAux_natDigitsAux (n : Nat) :
    n ≠ 0 → ∀ (acc : Nat) (tail : List Char),
    digitsToNatAux acc (natDigitsAux n tail) =
      digitsToNatAux (acc * tenPow n + n) tail := by
  induction n using Nat.strong_induction_on with
  | _ n ih =>
    intro hn acc tail
    rw [natDigitsAux, dif_neg hn]
    by_cases h10 : n < 10
    · have hdiv : n / 10 = 0 := by omega
      rw [hdiv, natDigitsAux, dif_pos rfl]
      rw [digitsToNatAux_digitChar _ _ _ (by omega)]
      have hmod : n % 10 = n := by omega
      rw [hmod, tenPow, if_pos h10]
    · have hm : n / 10 ≠ 0 := by omega
      rw [ih (n / 10) (Nat.div_lt_self (by omega) (by omega)) hm acc
        (digitChar (n % 10) :: tail)]
      rw [digitsToNatAux_digitChar _ _ _ (by omega)]
      have hT : tenPow n = 10 * tenPow (n / 10) := by
        rw [tenPow]
        rw [if_neg h10]
      rw [hT]
      have key : (acc * tenPow (n / 10) + n / 10) * 10 + n % 10 =
          acc * (10 * tenPow (n / 10)) + n := by
        have h1 : acc * (10 * tenPow (n / 10)) =
            acc * tenPow (n / 10) * 10 := by ring
        rw [h1]
        generalize acc * tenPow (n / 10) = X
        omega
      rw [key]

/-- Rendering a positive natural, or onto a non-empty tail, never yields an
empty digit list. -/
theorem natDigitsAux_ne_nil (n : Nat) :
    ∀ tail : List Char, (n ≠ 0 ∨ tail ≠ []) → natDigitsAux n tail ≠ [] := by
  induction n using Nat.strong_induction_on with
  | _ n ih =>
    intro tail h
    rw [natDigitsAux]
    by_cases hn : n = 0
    · rw [dif_pos hn]
      tauto
    · rw [dif_neg hn]
      exact ih (n / 10) (Nat.div_lt_self (by omega) (by omega)) _
        (Or.inr (by simp))

/-- Reading a rendered decimal cell gives back the natural. -/
theorem parseNat_natString (n : Nat) : parseNatCell (natString n) = some n := by
  unfold parseNatCell natString natDigits
  by_cases hn : n = 0
  · subst hn
    rfl
  · rw [if_neg hn]
    have hne : natDigitsAux n [] ≠ [] := natDigitsAux_ne_nil n [] (Or.inl hn)
    obtain ⟨c, cs, hcs⟩ : ∃ c cs, natDigitsAux n [] = c :: cs := by
      cases h : natDigitsAux n [] with
      | nil => exact absurd h hne
      | cons c cs => exact ⟨c, cs, rfl⟩
    show digitsToNat (natDigitsAux n []) = some n
    rw [hcs]
    have h1 : digitsToNat (c :: cs) = digitsToNatAux 0 (c :: cs) := rfl
    rw [h1, ← hcs, digitsToNatAux_natDigitsAux n hn 0 []]
    simp [digitsToNatAux]

/-- Claim C9: the exported byte stream of a page, parsed back as CSV,
reproduces exactly the page's rows: the parse succeeds and yields the header
record followed by one record per row in order, and each row's record decodes
back to the row itself — no extra and no missing records. -/
theorem export_csv_round_trip (rows : List OutRow) :
    parseCSV (exportCSV rows) =
      some (headerRecord :: rows.map recordOfRow) ∧
    ∀ r : OutRow, rowOfRecord (recordOfRow r) = some r := by
  constructor
  · unfold parseCSV exportCSV
    rw [show (String.mk (renderCSV (headerRecord :: rows.map recordOfRow))).data =
        renderCSV (headerRecord :: rows.map recordOfRow) from rfl]
    rw [← List.append_nil
      (renderCSV (headerRecord :: rows.map recordOfRow))]
    rw [show (csvInit : CSVState) = ⟨[], [], [], .unquoted⟩ from rfl]
    rw [runCSV_doc (headerRecord :: rows.map recordOfRow) [] []
      (by
        intro r hr
        rcases List.mem_cons.1 hr with h | h
        · subst h
          simp [headerRecord]
        · obtain ⟨x, _, hx⟩ := List.mem_map.1 h
          subst hx
          simp [recordOfRow])]
    simp [runCSV, csvFinalize]
  · intro r
    simp [rowOfRecord, recordOfRow, parseNat_natString]
